import Mathlib

/-!
# Verification of the oauth-connector token lifecycle manager

A shallow embedding of the TypeScript sources of `muthaiyanmani/oauth-connector`:
the cached `TokenManager` (token-manager with in-memory cache), the shared
`OAuthService` response conversion, the `Connector` facade, the local and remote
storage strategies, and the `EncryptionService` framing.

Conventions of the embedding:
* JavaScript machine numbers are `Nat` (all times are non-negative epoch
  milliseconds; the only subtraction, `expiresAt - gracePeriodMs`, is compared
  against a non-negative `now`, on which truncated `Nat` subtraction agrees
  with JavaScript number subtraction).
* Fallible `async` code returns `Except String` carrying the thrown `Error`
  message; external capabilities (storage strategies, the OAuth HTTP call, the
  file system, the AEAD cipher) are passed in as explicit outcome parameters,
  mirroring their injection in the source.
* TypeScript optional fields are `Option`; the JavaScript truthiness checks of
  the source (`||` on strings and numbers, `if (!x)`) are modelled explicitly.
* Each operation additionally returns the ordered list of capability
  invocations it performed, so that "does not invoke storage/refresh" claims
  are statements about the returned call log.
-/

/-- Token data structure (`src/types.ts`, `TokenData`).  `expiresAt` is kept
optional because `TokenManager.isTokenExpired` defensively checks
`if (!tokenData.expiresAt)` on data that may come from deserialized storage. -/
structure TokenData where
  accessToken : String
  refreshToken : Option String
  expiresAt : Option Nat
  tokenType : Option String
  scope : Option String
  deriving Repr, DecidableEq

/-- OAuth token endpoint response (`src/types.ts`, `OAuthTokenResponse`). -/
structure OAuthTokenResponse where
  access_token : String
  refresh_token : Option String
  expires_in : Option Nat
  token_type : Option String
  scope : Option String
  deriving Repr, DecidableEq

/-- JavaScript `a || b` on optional strings: `undefined` and `""` are falsy. -/
def jsOr (a b : Option String) : Option String :=
  match a with
  | none => b
  | some s => if s = "" then b else some s

/-- JavaScript falsiness of an optional string value. -/
def strFalsy (a : Option String) : Bool :=
  match a with
  | none => true
  | some s => s = ""

/-- JavaScript `a || b` for an optional number (`0` is falsy), as in
`response.expires_in || 3600`. -/
def jsOrNat (a : Option Nat) (b : Nat) : Nat :=
  match a with
  | none => b
  | some n => if n = 0 then b else n

/-- `TokenManager.isTokenExpired` (token-manager, cached variant):
`true` when `expiresAt` is falsy, otherwise `now >= expiresAt - gracePeriodMs`
with `gracePeriodMs = graceExpiryTimeSecs * 1000`. -/
def isTokenExpired (now graceSecs : Nat) (td : TokenData) : Bool :=
  match td.expiresAt with
  | none => true
  | some e =>
    if e = 0 then true
    else decide (now ≥ e - graceSecs * 1000)

/-- A capability invocation recorded by the embedded manager: a storage load,
a refresh request (with the refresh token that was sent), or a storage save. -/
inductive CapCall where
  | load : CapCall
  | refresh (sentToken : String) : CapCall
  | save (td : TokenData) : CapCall
  deriving Repr, DecidableEq

/-- Outcome-level model of a configured `StorageStrategy`: the result its
`loadToken` / `saveToken` calls would produce during the operation at hand. -/
structure StorageOps where
  loadToken : Except String (Option TokenData)
  saveToken : TokenData → Except String Unit

/-- The manager's collaborators: the optional storage strategy, the OAuth
service's `refreshAccessToken` outcome, and the statically configured refresh
token returned by `OAuthService.getRefreshToken()` (`config.refreshToken`). -/
structure Env where
  storage : Option StorageOps
  refreshAccessToken : String → Except String TokenData
  configRefreshToken : Option String

/-- The message of the error thrown when no refresh token is available. -/
def noRefreshTokenMsg : String := "No refresh token available. Please re-authenticate."

/-- `tokenData?.refreshToken || this.oauthService.getRefreshToken()`. -/
def pickRefreshToken (td : Option TokenData) (cfg : Option String) : Option String :=
  jsOr (Option.bind td TokenData.refreshToken) cfg

/-- Step 2 of `TokenManager.getAccessToken`: load from storage when one is
configured, otherwise fall back to the current cache value. -/
def loadStep (env : Env) (cache : Option TokenData) : Except String (Option TokenData) :=
  match env.storage with
  | some st => st.loadToken
  | none => Except.ok cache

/-- The storage invocations performed by `loadStep`. -/
def loadLog (env : Env) : List CapCall :=
  match env.storage with
  | some _ => [CapCall.load]
  | none => []

/-- Step 3 of `TokenManager.getAccessToken` (shared shape with
`TokenManager.refreshToken`): choose the refresh token by JavaScript `||`,
throw when it is falsy, refresh, save when storage is configured, update the
cache.  The enclosing `catch` clears the cache on every error path. -/
def refreshStep (env : Env) (tokenData : Option TokenData) (log : List CapCall) :
    Except String String × Option TokenData × List CapCall :=
  match pickRefreshToken tokenData env.configRefreshToken with
  | none => (Except.error noRefreshTokenMsg, none, log)
  | some rt =>
    if rt = "" then (Except.error noRefreshTokenMsg, none, log)
    else
      match env.refreshAccessToken rt with
      | Except.error e => (Except.error e, none, log ++ [CapCall.refresh rt])
      | Except.ok newTd =>
        match env.storage with
        | some st =>
          match st.saveToken newTd with
          | Except.error e =>
            (Except.error e, none, log ++ [CapCall.refresh rt, CapCall.save newTd])
          | Except.ok _ =>
            (Except.ok newTd.accessToken, some newTd,
              log ++ [CapCall.refresh rt, CapCall.save newTd])
        | none => (Except.ok newTd.accessToken, some newTd, log ++ [CapCall.refresh rt])

/-- Steps 2-4 of `TokenManager.getAccessToken` together with the `catch` that
clears the in-memory cache before rethrowing. -/
def getAccessTokenSteps (now graceSecs : Nat) (env : Env) (cache : Option TokenData) :
    Except String String × Option TokenData × List CapCall :=
  match loadStep env cache with
  | Except.error e => (Except.error e, none, loadLog env)
  | Except.ok tokenData =>
    match tokenData with
    | some td =>
      if isTokenExpired now graceSecs td then refreshStep env (some td) (loadLog env)
      else (Except.ok td.accessToken, some td, loadLog env)
    | none => refreshStep env none (loadLog env)

/-- `TokenManager.getAccessToken` (token-manager, cached variant).  Returns
the result, the new value of `cachedTokenData`, and the capability call log.
Step 1 serves a present, unexpired cache entry without any capability call. -/
def getAccessToken (now graceSecs : Nat) (env : Env) (cache : Option TokenData) :
    Except String String × Option TokenData × List CapCall :=
  match cache with
  | some td =>
    if isTokenExpired now graceSecs td then getAccessTokenSteps now graceSecs env (some td)
    else (Except.ok td.accessToken, some td, [])
  | none => getAccessTokenSteps now graceSecs env none

/-- `TokenManager.refreshToken` (manual refresh): load from storage or cache,
pick a refresh token, refresh and save unconditionally; the `catch` clears the
cache before rethrowing. -/
def refreshTokenOp (env : Env) (cache : Option TokenData) :
    Except String TokenData × Option TokenData × List CapCall :=
  match loadStep env cache with
  | Except.error e => (Except.error e, none, loadLog env)
  | Except.ok tokenData =>
    match pickRefreshToken tokenData env.configRefreshToken with
    | none => (Except.error noRefreshTokenMsg, none, loadLog env)
    | some rt =>
      if rt = "" then (Except.error noRefreshTokenMsg, none, loadLog env)
      else
        match env.refreshAccessToken rt with
        | Except.error e => (Except.error e, none, loadLog env ++ [CapCall.refresh rt])
        | Except.ok newTd =>
          match env.storage with
          | some st =>
            match st.saveToken newTd with
            | Except.error e =>
              (Except.error e, none, loadLog env ++ [CapCall.refresh rt, CapCall.save newTd])
            | Except.ok _ =>
              (Except.ok newTd, some newTd,
                loadLog env ++ [CapCall.refresh rt, CapCall.save newTd])
          | none => (Except.ok newTd, some newTd, loadLog env ++ [CapCall.refresh rt])

/-- `TokenManager.getTokenData`: serve the cache when present, otherwise do a
single storage load (caching a found token) without triggering a refresh. -/
def getTokenData (env : Env) (cache : Option TokenData) :
    Except String (Option TokenData) × Option TokenData × List CapCall :=
  match cache with
  | some td => (Except.ok (some td), some td, [])
  | none =>
    match env.storage with
    | some st =>
      match st.loadToken with
      | Except.error e => (Except.error e, none, [CapCall.load])
      | Except.ok none => (Except.ok none, none, [CapCall.load])
      | Except.ok (some td) => (Except.ok (some td), some td, [CapCall.load])
    | none => (Except.ok none, none, [])

/-- `TokenManager.clearCache`. -/
def clearCache (cache : Option TokenData) : Option TokenData :=
  match cache with
  | _ => none

/-- A concrete environment with no storage and no static refresh token. -/
def envBare : Env :=
  { storage := none
    refreshAccessToken := fun _ => Except.error "unreachable"
    configRefreshToken := none }

/-- Fresh-token witness data for claim C1. -/
def tdFreshC1 : TokenData :=
  { accessToken := "tokA"
    refreshToken := some "rtA"
    expiresAt := some 10000
    tokenType := some "Bearer"
    scope := none }

/-- A storage strategy whose load fails. -/
def stFailC4 : StorageOps :=
  { loadToken := Except.error "boom"
    saveToken := fun _ => Except.ok () }

/-- An environment whose storage load fails. -/
def envFailC4 : Env :=
  { storage := some stFailC4
    refreshAccessToken := fun _ => Except.error "unreachable"
    configRefreshToken := none }

/-- `OAuthService.convertToTokenData`: `expiresAt = Date.now() +
(response.expires_in || 3600) * 1000`, with `token_type || 'Bearer'`. -/
def convertToTokenData (now : Nat) (response : OAuthTokenResponse) : TokenData :=
  { accessToken := response.access_token
    refreshToken := response.refresh_token
    expiresAt := some (now + jsOrNat response.expires_in 3600 * 1000)
    tokenType := jsOr response.token_type (some "Bearer")
    scope := response.scope }

/-- The shared provider refresh pattern (`GoogleOAuth` / `ZohoOAuth` / generic
`OAuth` `refreshAccessToken`): make the token request, convert the response,
and preserve the previous refresh token when the response omits one. -/
def refreshAccessTokenImpl (now : Nat) (requestResult : Except String OAuthTokenResponse)
    (sentRefreshToken : String) : Except String TokenData :=
  match requestResult with
  | Except.error e => Except.error e
  | Except.ok resp =>
    let td := convertToTokenData now resp
    if strFalsy td.refreshToken then
      Except.ok { td with refreshToken := some sentRefreshToken }
    else Except.ok td

/-- A token response whose `expires_in` is the (falsy) number `0`. -/
def respZeroC5 : OAuthTokenResponse :=
  { access_token := "a"
    refresh_token := none
    expires_in := some 0
    token_type := none
    scope := none }

/-- A token response omitting `expires_in`. -/
def respOmitC5 : OAuthTokenResponse :=
  { access_token := "a"
    refresh_token := none
    expires_in := none
    token_type := none
    scope := none }

/-! ## Concurrency: the single-flight claim

`getAccessToken` is an `async` method with no mutex: between the moment a
caller reads the stale cache and the moment its `refreshAccessToken` promise
resolves, other callers run.  We model two concurrent invocations of
`getAccessToken` on the same manager (configured without a storage strategy, so
the only suspension point is the `await` on `refreshAccessToken`) as tasks of a
small-step scheduler over the shared `cachedTokenData`. Each step runs one task
from one suspension point to the next, executing exactly the source's
synchronous segment. -/

/-- Configuration shared by the two concurrent callers. -/
structure SfConfig where
  now : Nat
  graceSecs : Nat
  configRefreshToken : Option String
  refreshResult : String → Except String TokenData

/-- Where a single `getAccessToken()` invocation currently stands. -/
inductive TaskState where
  | ready : TaskState
  | awaitingRefresh (sentToken : String) : TaskState
  | finished (r : Except String String) : TaskState
  deriving Repr

/-- Shared state: the manager's cache, the two callers, and the list of
refresh tokens sent to the authorization server so far. -/
structure SfConf where
  cache : Option TokenData
  taskA : TaskState
  taskB : TaskState
  refreshCalls : List String

/-- The synchronous prefix of a (no-storage) `getAccessToken()` call after a
step-1 cache miss: step 2 reads the cache, step 3 picks the refresh token,
throws if it is falsy (the catch clearing the cache), and otherwise issues the
`refreshAccessToken` call, suspending on its `await`. -/
def sfStart (cfg : SfConfig) (cache : Option TokenData) (calls : List String) :
    TaskState × Option TokenData × List String :=
  match pickRefreshToken cache cfg.configRefreshToken with
  | none => (TaskState.finished (Except.error noRefreshTokenMsg), none, calls)
  | some rt =>
    if rt = "" then (TaskState.finished (Except.error noRefreshTokenMsg), none, calls)
    else (TaskState.awaitingRefresh rt, cache, calls ++ [rt])

/-- Run one task from its current suspension point to the next: a `ready` task
executes step 1 (serving a fresh cache immediately) and otherwise `sfStart`;
a task awaiting its refresh resumes with the call's outcome, updating the
shared cache (or clearing it in the catch) and returning. -/
def sfStepTask (cfg : SfConfig) (cache : Option TokenData) (calls : List String) :
    TaskState → TaskState × Option TokenData × List String
  | TaskState.ready =>
    match cache with
    | some td =>
      if isTokenExpired cfg.now cfg.graceSecs td then sfStart cfg (some td) calls
      else (TaskState.finished (Except.ok td.accessToken), some td, calls)
    | none => sfStart cfg none calls
  | TaskState.awaitingRefresh rt =>
    match cfg.refreshResult rt with
    | Except.error e => (TaskState.finished (Except.error e), none, calls)
    | Except.ok newTd => (TaskState.finished (Except.ok newTd.accessToken), some newTd, calls)
  | TaskState.finished r => (TaskState.finished r, cache, calls)

/-- Advance the selected task (`true` = caller A). -/
def sfStep (cfg : SfConfig) (pickA : Bool) (c : SfConf) : SfConf :=
  if pickA then
    match sfStepTask cfg c.cache c.refreshCalls c.taskA with
    | (t, cache, calls) => { cache := cache, taskA := t, taskB := c.taskB, refreshCalls := calls }
  else
    match sfStepTask cfg c.cache c.refreshCalls c.taskB with
    | (t, cache, calls) => { cache := cache, taskA := c.taskA, taskB := t, refreshCalls := calls }

/-- Run a schedule of task selections. -/
def sfRun (cfg : SfConfig) (sched : List Bool) (c : SfConf) : SfConf :=
  sched.foldl (fun acc b => sfStep cfg b acc) c

/-- A stale cached credential (expired at 1000 ms, clock at 2000 ms). -/
def tdStaleC2 : TokenData :=
  { accessToken := "old"
    refreshToken := some "rt"
    expiresAt := some 1000
    tokenType := none
    scope := none }

/-- The fresh credential returned by the authorization server. -/
def tdNewC2 : TokenData :=
  { accessToken := "new"
    refreshToken := some "rt2"
    expiresAt := some 9999999
    tokenType := none
    scope := none }

/-- Concrete two-caller configuration: no storage, grace period 0, a
successful server. -/
def sfCfgC2 : SfConfig :=
  { now := 2000
    graceSecs := 0
    configRefreshToken := none
    refreshResult := fun _ => Except.ok tdNewC2 }

/-- Both callers start before either refresh resolves. -/
def sfInitC2 : SfConf :=
  { cache := some tdStaleC2
    taskA := TaskState.ready
    taskB := TaskState.ready
    refreshCalls := [] }

/-- Refresh invocations recorded in a capability call log. -/
def countRefreshCalls (log : List CapCall) : Nat :=
  (log.filter fun c =>
    match c with
    | CapCall.refresh _ => true
    | _ => false).length

/-! ## The Connector facade and its notification callbacks -/

/-- The connector's optional callbacks, each modelled by the outcome it would
produce when invoked (`none` = not registered). -/
structure Handlers where
  onFetching : Option (Except String Unit)
  onRefreshed : Option (TokenData → Except String Unit)
  onError : Option (String → Except String Unit)

/-- The `catch` block of `Connector.getAccessToken` / `Connector.refreshToken`:
`await this.onTokenError(err)` runs when registered — if it returns normally
the original error is rethrown, and if it itself throws, its error replaces
the original one. -/
def handleError {α : Type} (h : Handlers) (e : String) : Except String α :=
  match h.onError with
  | none => Except.error e
  | some f =>
    match f e with
    | Except.ok _ => Except.error e
    | Except.error e2 => Except.error e2

/-- The heuristic of `Connector.getAccessToken`: the token counts as "just
refreshed" when `expiresAt - Date.now() > 25 * 60 * 1000` (with a missing
`expiresAt` the JavaScript comparison against `NaN` is false). -/
def justRefreshedHeuristic (now : Nat) (td : TokenData) : Bool :=
  match td.expiresAt with
  | none => false
  | some e => decide (now + 25 * 60 * 1000 < e)

/-- `Connector.getAccessToken`: fire `onFetchingAccessToken`, call the
manager, fire `onTokenRefreshed` when the heuristic holds, and route every
thrown error (including callback errors) through the `catch` block.  Note
that callback invocations are `await`ed inside the same `try`. -/
def connectorGetAccessToken (now graceSecs : Nat) (env : Env) (h : Handlers)
    (cache : Option TokenData) :
    Except String String × Option TokenData × List CapCall :=
  match h.onFetching with
  | some (Except.error e) => (handleError h e, cache, [])
  | _ =>
    match getAccessToken now graceSecs env cache with
    | (Except.error e, cache1, log1) => (handleError h e, cache1, log1)
    | (Except.ok token, cache1, log1) =>
      match getTokenData env cache1 with
      | (Except.error e, cache2, log2) => (handleError h e, cache2, log1 ++ log2)
      | (Except.ok tokenDataOpt, cache2, log2) =>
        match tokenDataOpt with
        | some td =>
          if justRefreshedHeuristic now td then
            match h.onRefreshed with
            | some f =>
              match f td with
              | Except.error e => (handleError h e, cache2, log1 ++ log2)
              | Except.ok _ => (Except.ok token, cache2, log1 ++ log2)
            | none => (Except.ok token, cache2, log1 ++ log2)
          else (Except.ok token, cache2, log1 ++ log2)
        | none => (Except.ok token, cache2, log1 ++ log2)

/-- `Connector.refreshToken`: fire `onFetchingAccessToken`, call the manager's
manual refresh, fire `onTokenRefreshed` on success; same `catch` routing. -/
def connectorRefreshToken (env : Env) (h : Handlers) (cache : Option TokenData) :
    Except String TokenData × Option TokenData × List CapCall :=
  match h.onFetching with
  | some (Except.error e) => (handleError h e, cache, [])
  | _ =>
    match refreshTokenOp env cache with
    | (Except.error e, cache1, log1) => (handleError h e, cache1, log1)
    | (Except.ok td, cache1, log1) =>
      match h.onRefreshed with
      | some f =>
        match f td with
        | Except.error e => (handleError h e, cache1, log1)
        | Except.ok _ => (Except.ok td, cache1, log1)
      | none => (Except.ok td, cache1, log1)

/-- `Connector.deleteToken`: awaits the storage strategy's `deleteToken` and
rethrows its error; the manager's in-memory cache is not touched. -/
def connectorDeleteToken (deleteResult : Except String Unit) (cache : Option TokenData) :
    Except String Unit × Option TokenData :=
  match deleteResult with
  | Except.ok _ => (Except.ok (), cache)
  | Except.error e => (Except.error e, cache)

/-- A fresh cached credential for the connector runs. -/
def tdFreshC8 : TokenData :=
  { accessToken := "tok"
    refreshToken := some "rt"
    expiresAt := some 99999999
    tokenType := none
    scope := none }

/-- No callbacks registered. -/
def handlersNoneC8 : Handlers :=
  { onFetching := none
    onRefreshed := none
    onError := none }

/-- An `onFetchingAccessToken` callback that throws. -/
def handlersBadC8 : Handlers :=
  { onFetching := some (Except.error "cb boom")
    onRefreshed := none
    onError := none }

/-- An `onTokenRefreshed` callback that throws. -/
def handlersRefC8 : Handlers :=
  { onFetching := none
    onRefreshed := some (fun _ => Except.error "refreshed cb boom")
    onError := none }

/-- A cached credential present when `deleteToken` is called. -/
def tdC9 : TokenData :=
  { accessToken := "tokC9"
    refreshToken := none
    expiresAt := some 5000
    tokenType := none
    scope := none }

/-! ## Remote storage strategy (decryption failures) -/

/-- The object returned by the remote `onDownload` callback, as the source
reads it: its `TokenData` view plus the `_encrypted` marker and `_data`
payload the strategy probes for. -/
structure RemoteObject where
  asToken : TokenData
  encMarker : Bool
  encData : Option String

/-- `RemoteStorageStrategy.loadToken`: download, return `null` as absent;
when an encryption key is configured and the object carries the encrypted
wrapper, decrypt and parse it — rethrowing (not absorbing) decryption and
parse failures; otherwise return the object as-is. -/
def remoteLoadToken (encryptionKey : Option String)
    (decryptFn : String → String → Except String String)
    (parseFn : String → Except String TokenData)
    (download : Except String (Option RemoteObject)) : Except String (Option TokenData) :=
  match download with
  | Except.error e => Except.error e
  | Except.ok none => Except.ok none
  | Except.ok (some obj) =>
    match encryptionKey, obj.encData with
    | some key, some d =>
      if key ≠ "" ∧ obj.encMarker = true ∧ d ≠ "" then
        match decryptFn d key with
        | Except.error e => Except.error e
        | Except.ok s =>
          match parseFn s with
          | Except.error e => Except.error e
          | Except.ok td => Except.ok (some td)
      else Except.ok (some obj.asToken)
    | _, _ => Except.ok (some obj.asToken)

/-- The dummy `TokenData` view of the encrypted wrapper object. -/
def tdDummyC7 : TokenData :=
  { accessToken := ""
    refreshToken := none
    expiresAt := none
    tokenType := none
    scope := none }

/-- An encrypted wrapper whose blob will fail to decrypt. -/
def objC7 : RemoteObject :=
  { asToken := tdDummyC7
    encMarker := true
    encData := some "blob" }

/-- Remote storage whose load fails with a decryption error. -/
def stC7 : StorageOps :=
  { loadToken := Except.error "Decryption failed: corrupt"
    saveToken := fun _ => Except.ok () }

/-- A server that would happily refresh. -/
def tdNewC7 : TokenData :=
  { accessToken := "newtok"
    refreshToken := some "r2"
    expiresAt := some 999999
    tokenType := none
    scope := none }

/-- Manager environment for scenario D: corrupt stored blob, static refresh
token available. -/
def envC7 : Env :=
  { storage := some stC7
    refreshAccessToken := fun _ => Except.ok tdNewC7
    configRefreshToken := some "static-rt" }

/-- The decryption outcome of the corrupt blob. -/
def badDecryptC7 : String → String → Except String String :=
  fun _ _ => Except.error "Decryption failed: corrupt"

/-- Parsing is never reached in scenario D. -/
def parseC7 : String → Except String TokenData :=
  fun _ => Except.error "unused"

/-! ## Local file strategy (ENOENT handling) -/

/-- A file-system error: the distinguished `ENOENT` code or any other error
(carrying its message). -/
inductive FsError where
  | enoent : FsError
  | other (msg : String) : FsError
  deriving Repr, DecidableEq

/-- `StorageStrategy.decryptIfNeeded`: decrypt only when a truthy encryption
key is configured. -/
def decryptIfNeeded (key : Option String)
    (decryptFn : String → String → Except String String) (data : String) :
    Except String String :=
  match key with
  | some k => if k = "" then Except.ok data else decryptFn data k
  | none => Except.ok data

/-- `LocalAuthStrategy.loadToken`: read the file, decrypt if needed, parse;
the catch maps `ENOENT` to `null` and rethrows everything else.  Decrypt and
parse failures are not `ENOENT` and therefore propagate. -/
def localLoadToken (key : Option String)
    (decryptFn : String → String → Except String String)
    (parseFn : String → Except String TokenData)
    (readFileResult : Except FsError String) : Except String (Option TokenData) :=
  match readFileResult with
  | Except.error FsError.enoent => Except.ok none
  | Except.error (FsError.other m) => Except.error m
  | Except.ok data =>
    match decryptIfNeeded key decryptFn data with
    | Except.error e => Except.error e
    | Except.ok s =>
      match parseFn s with
      | Except.error e => Except.error e
      | Except.ok td => Except.ok (some td)

/-- `LocalAuthStrategy.deleteToken`: unlink the file; the catch turns
`ENOENT` into a successful no-op and rethrows everything else. -/
def localDeleteToken (unlinkResult : Except FsError Unit) : Except String Unit :=
  match unlinkResult with
  | Except.ok _ => Except.ok ()
  | Except.error FsError.enoent => Except.ok ()
  | Except.error (FsError.other m) => Except.error m

/-! ## EncryptionService

`EncryptionService.encrypt` generates a 16-byte salt and 16-byte IV, derives
a key with scrypt, encrypts with AES-256-GCM (16-byte auth tag) and returns
`base64(salt || iv || tag || ciphertext)`; `decrypt` slices those fixed-width
fields back out, derives the key and authenticates.  The scrypt/AES-GCM
primitives live in `node:crypto` and are modelled as an injected primitive
record; the service's own framing (field concatenation, base64 transport
encoding, fixed offsets, error mapping) is embedded and proved.  Bytes are
`Nat`s below 256. -/

/-- Position in the base64 alphabet to character
(`Buffer.toString('base64')`). -/
def sextetToChar (n : Nat) : Char :=
  if n < 26 then Char.ofNat (65 + n)
  else if n < 52 then Char.ofNat (97 + (n - 26))
  else if n < 62 then Char.ofNat (48 + (n - 52))
  else if n = 62 then '+'
  else '/'

/-- Character back to its base64 alphabet position
(`Buffer.from(s, 'base64')`). -/
def charToSextet (c : Char) : Nat :=
  if 65 ≤ c.toNat ∧ c.toNat ≤ 90 then c.toNat - 65
  else if 97 ≤ c.toNat ∧ c.toNat ≤ 122 then 26 + (c.toNat - 97)
  else if 48 ≤ c.toNat ∧ c.toNat ≤ 57 then 52 + (c.toNat - 48)
  else if c = '+' then 62
  else 63

/-- base64 encoding of a byte list, three bytes to four characters with
`'='` padding. -/
def b64Encode : List Nat → List Char
  | [] => []
  | [b1] => [sextetToChar (b1 / 4), sextetToChar (b1 % 4 * 16), '=', '=']
  | [b1, b2] =>
    [sextetToChar (b1 / 4), sextetToChar (b1 % 4 * 16 + b2 / 16),
      sextetToChar (b2 % 16 * 4), '=']
  | b1 :: b2 :: b3 :: rest =>
    sextetToChar (b1 / 4) :: sextetToChar (b1 % 4 * 16 + b2 / 16) ::
      sextetToChar (b2 % 16 * 4 + b3 / 64) :: sextetToChar (b3 % 64) :: b64Encode rest

/-- base64 decoding, the inverse slicing of `b64Encode`. -/
def b64Decode : List Char → List Nat
  | c1 :: c2 :: c3 :: c4 :: rest =>
    if c3 = '=' then [charToSextet c1 * 4 + charToSextet c2 / 16]
    else if c4 = '=' then
      [charToSextet c1 * 4 + charToSextet c2 / 16,
        charToSextet c2 % 16 * 16 + charToSextet c3 / 4]
    else
      (charToSextet c1 * 4 + charToSextet c2 / 16) ::
        (charToSextet c2 % 16 * 16 + charToSextet c3 / 4) ::
        (charToSextet c3 % 4 * 64 + charToSextet c4) :: b64Decode rest
  | _ => []

/-- The `node:crypto` primitives the service delegates to: scrypt key
derivation and the AES-256-GCM cipher pair (ciphertext bytes and 16-byte
auth tag; decryption returns `none` when authentication fails). -/
structure CipherPrims where
  deriveKey : String → List Nat → List Nat
  encryptBlock : List Nat → List Nat → String → List Nat × List Nat
  decryptBlock : List Nat → List Nat → List Nat → List Nat → Option String

/-- The error the service throws when decryption fails (the source wraps the
cipher's message; the constant prefix is kept). -/
def decryptionFailedMsg : String := "Decryption failed"

/-- `EncryptionService.encrypt` with its randomness (`randomBytes` salt and
IV) made explicit: derive the key, encrypt, and return
`base64(salt || iv || tag || ciphertext)`. -/
def encryptE (P : CipherPrims) (data password : String) (salt iv : List Nat) : String :=
  let key := P.deriveKey password salt
  let ct := (P.encryptBlock key iv data).1
  let tag := (P.encryptBlock key iv data).2
  String.mk (b64Encode (salt ++ iv ++ tag ++ ct))

/-- `EncryptionService.decrypt`: decode base64, slice
`salt = [0,16), iv = [16,32), tag = [32,48), ciphertext = [48,..)`, derive the
key, authenticate and decrypt; an authentication failure becomes the
decryption-failed error. -/
def decryptE (P : CipherPrims) (encryptedData password : String) : Except String String :=
  let data := b64Decode encryptedData.toList
  let salt := data.take 16
  let iv := (data.drop 16).take 16
  let tag := (data.drop 32).take 16
  let ct := data.drop 48
  let key := P.deriveKey password salt
  match P.decryptBlock key iv ct tag with
  | some s => Except.ok s
  | none => Except.error decryptionFailedMsg

/-- A toy primitive record used only to witness the AEAD contract at concrete
inputs: the "ciphertext" is the plaintext's code points and the "tag" hashes
the derived key. -/
def toyCipher : CipherPrims :=
  { deriveKey := fun password salt => (password.toList.map Char.toNat) ++ salt
    encryptBlock := fun key _ data =>
      (data.toList.map Char.toNat,
        List.replicate 15 0 ++ [key.foldl (fun a b => a + b) 0 % 256])
    decryptBlock := fun key _ ct tag =>
      if tag = List.replicate 15 0 ++ [key.foldl (fun a b => a + b) 0 % 256] then
        some (String.mk (ct.map Char.ofNat))
      else none }

/-! ## Theorems -/

/-- C1: with a cached credential whose `expiresAt` is strictly later than
`now` plus the grace period (i.e. `now < expiresAt - gracePeriodMs`),
`getAccessToken` returns the cached access token, leaves the cache unchanged
and performs no storage or refresh capability call. -/
theorem claim_C1_cache_hit (now graceSecs : Nat) (env : Env) (td : TokenData) (e : Nat)
    (hexp : td.expiresAt = some e) (hfresh : now + graceSecs * 1000 < e) :
    getAccessToken now graceSecs env (some td) = (Except.ok td.accessToken, some td, []) := by
  have hnot : isTokenExpired now graceSecs td = false := by
    have he0 : ¬ e = 0 := by omega
    simp only [isTokenExpired, hexp, if_neg he0, decide_eq_false_iff_not, not_le]
    omega
  simp only [getAccessToken, hnot, Bool.false_eq_true, if_false]

/-- Witness for C1 at a concrete state: cached token `tokA` expiring at
`10000` ms, `now = 1000`, grace period `0`. -/
theorem claim_C1_cache_hit_witness :
    getAccessToken 1000 0 envBare (some tdFreshC1) =
      (Except.ok "tokA", some tdFreshC1, []) := by
  exact claim_C1_cache_hit 1000 0 envBare tdFreshC1 10000 rfl (by omega)

/-- If step 1 misses (cache absent or expired), `getAccessToken` proceeds to
steps 2-4. -/
theorem getAccessToken_eq_steps (now graceSecs : Nat) (env : Env) (cache : Option TokenData)
    (hcache : ∀ td, cache = some td → isTokenExpired now graceSecs td = true) :
    getAccessToken now graceSecs env cache = getAccessTokenSteps now graceSecs env cache := by
  cases cache with
  | none => rfl
  | some td =>
    have hexp := hcache td rfl
    simp [getAccessToken, hexp]

/-- If the loaded credential is absent or stale, steps 2-4 reduce to the
refresh block. -/
theorem getAccessTokenSteps_eq_refreshStep (now graceSecs : Nat) (env : Env)
    (cache tokenData : Option TokenData)
    (hload : loadStep env cache = Except.ok tokenData)
    (hstale : tokenData = none ∨
      ∃ td, tokenData = some td ∧ isTokenExpired now graceSecs td = true) :
    getAccessTokenSteps now graceSecs env cache = refreshStep env tokenData (loadLog env) := by
  rcases hstale with h | ⟨td, h, hexp⟩
  · subst h
    simp [getAccessTokenSteps, hload]
  · subst h
    simp [getAccessTokenSteps, hload, hexp]

/-- When the credential's own refresh token is a truthy string, the `||`
selection returns it. -/
theorem pickRefreshToken_of_own (td : Option TokenData) (cfg : Option String) (r : String)
    (h : Option.bind td TokenData.refreshToken = some r) (hr : r ≠ "") :
    pickRefreshToken td cfg = some r := by
  simp [pickRefreshToken, jsOr, h, hr]

/-- When the credential's own refresh token is falsy, the `||` selection
falls back to the configured token. -/
theorem pickRefreshToken_of_cfg (td : Option TokenData) (cfg : Option String)
    (h : strFalsy (Option.bind td TokenData.refreshToken) = true) :
    pickRefreshToken td cfg = cfg := by
  unfold pickRefreshToken jsOr
  cases hb : Option.bind td TokenData.refreshToken with
  | none => rfl
  | some s =>
    rw [hb] at h
    simp [strFalsy] at h
    simp [h]

/-- Whenever the selected refresh token is a truthy string, the refresh block
does invoke `refreshAccessToken` with exactly that token. -/
theorem refreshStep_mem_refresh (env : Env) (td : Option TokenData) (log : List CapCall)
    (r : String) (h : pickRefreshToken td env.configRefreshToken = some r) (hr : r ≠ "") :
    CapCall.refresh r ∈ (refreshStep env td log).2.2 := by
  rcases hr1 : env.refreshAccessToken r with e | newTd
  · simp [refreshStep, h, hr, hr1]
  · rcases hst : env.storage with _ | st
    · simp [refreshStep, h, hr, hr1, hst]
    · rcases hsv : st.saveToken newTd with e | u
      · simp [refreshStep, h, hr, hr1, hst, hsv]
      · simp [refreshStep, h, hr, hr1, hst, hsv]

/-- Whenever the selected refresh token is falsy, the refresh block throws
`noRefreshTokenMsg`, clears the cache, and performs no further call. -/
theorem refreshStep_missing (env : Env) (td : Option TokenData) (log : List CapCall)
    (h : strFalsy (pickRefreshToken td env.configRefreshToken) = true) :
    refreshStep env td log = (Except.error noRefreshTokenMsg, none, log) := by
  unfold refreshStep
  cases hp : pickRefreshToken td env.configRefreshToken with
  | none => rfl
  | some s =>
    rw [hp] at h
    simp [strFalsy] at h
    simp [h]

/-- C3: after the cache miss and the storage consultation, an absent or stale
credential leads the manager to (a) refresh with the credential's own refresh
token when that is a truthy string, (b) otherwise refresh with the statically
configured refresh token when that is truthy, and (c) fail with the
missing-refresh-token error, without any refresh call, when both are falsy. -/
theorem claim_C3_refresh_token_selection (now graceSecs : Nat) (env : Env)
    (cache tokenData : Option TokenData)
    (hcache : ∀ td, cache = some td → isTokenExpired now graceSecs td = true)
    (hload : loadStep env cache = Except.ok tokenData)
    (hstale : tokenData = none ∨
      ∃ td, tokenData = some td ∧ isTokenExpired now graceSecs td = true) :
    (∀ r, Option.bind tokenData TokenData.refreshToken = some r → r ≠ "" →
      CapCall.refresh r ∈ (getAccessToken now graceSecs env cache).2.2) ∧
    (∀ c, strFalsy (Option.bind tokenData TokenData.refreshToken) = true →
      env.configRefreshToken = some c → c ≠ "" →
      CapCall.refresh c ∈ (getAccessToken now graceSecs env cache).2.2) ∧
    (strFalsy (Option.bind tokenData TokenData.refreshToken) = true →
      strFalsy env.configRefreshToken = true →
      (getAccessToken now graceSecs env cache).1 = Except.error noRefreshTokenMsg ∧
      ∀ r, CapCall.refresh r ∉ (getAccessToken now graceSecs env cache).2.2) := by
  have hkey : getAccessToken now graceSecs env cache = refreshStep env tokenData (loadLog env) := by
    rw [getAccessToken_eq_steps now graceSecs env cache hcache]
    exact getAccessTokenSteps_eq_refreshStep now graceSecs env cache tokenData hload hstale
  refine ⟨?_, ?_, ?_⟩
  · intro r hbind hr
    rw [hkey]
    exact refreshStep_mem_refresh env tokenData (loadLog env) r
      (pickRefreshToken_of_own tokenData env.configRefreshToken r hbind hr) hr
  · intro c hfalsy hcfg hc
    rw [hkey]
    have hp : pickRefreshToken tokenData env.configRefreshToken = some c := by
      rw [pickRefreshToken_of_cfg tokenData env.configRefreshToken hfalsy, hcfg]
    exact refreshStep_mem_refresh env tokenData (loadLog env) c hp hc
  · intro hfalsy hcfgf
    have hp : strFalsy (pickRefreshToken tokenData env.configRefreshToken) = true := by
      rw [pickRefreshToken_of_cfg tokenData env.configRefreshToken hfalsy]
      exact hcfgf
    rw [hkey, refreshStep_missing env tokenData (loadLog env) hp]
    refine ⟨rfl, ?_⟩
    intro r
    cases hst : env.storage <;> simp [loadLog, hst]

/-- Witness for C3, exercising case (c): no cache, no storage, no static
refresh token gives the missing-refresh-token failure. -/
theorem claim_C3_refresh_token_selection_witness :
    (getAccessToken 5 0 envBare none).1 = Except.error noRefreshTokenMsg := by
  have h := claim_C3_refresh_token_selection 5 0 envBare none none
    (fun td htd => Option.noConfusion htd) rfl (Or.inl rfl)
  exact (h.2.2 rfl rfl).1

/-- The refresh block either clears the cache or succeeds. -/
theorem refreshStep_cache (env : Env) (td : Option TokenData) (log : List CapCall) :
    (refreshStep env td log).2.1 = none ∨ ∃ s, (refreshStep env td log).1 = Except.ok s := by
  rcases hp : pickRefreshToken td env.configRefreshToken with _ | s
  · left
    simp [refreshStep, hp]
  · by_cases hs : s = ""
    · left
      simp [refreshStep, hp, hs]
    · rcases hr : env.refreshAccessToken s with e | newTd
      · left
        simp [refreshStep, hp, hs, hr]
      · rcases hst : env.storage with _ | st
        · right
          exact ⟨newTd.accessToken, by simp [refreshStep, hp, hs, hr, hst]⟩
        · rcases hsv : st.saveToken newTd with e | u
          · left
            simp [refreshStep, hp, hs, hr, hst, hsv]
          · right
            exact ⟨newTd.accessToken, by simp [refreshStep, hp, hs, hr, hst, hsv]⟩

/-- Steps 2-4 either clear the cache or succeed. -/
theorem getAccessTokenSteps_cache (now graceSecs : Nat) (env : Env) (cache : Option TokenData) :
    (getAccessTokenSteps now graceSecs env cache).2.1 = none ∨
      ∃ s, (getAccessTokenSteps now graceSecs env cache).1 = Except.ok s := by
  rcases hl : loadStep env cache with e | tokenData
  · left
    simp [getAccessTokenSteps, hl]
  · rcases tokenData with _ | td
    · simpa [getAccessTokenSteps, hl] using refreshStep_cache env none (loadLog env)
    · by_cases hexp : isTokenExpired now graceSecs td = true
      · simpa [getAccessTokenSteps, hl, hexp] using refreshStep_cache env (some td) (loadLog env)
      · right
        refine ⟨td.accessToken, ?_⟩
        simp only [Bool.not_eq_true] at hexp
        simp [getAccessTokenSteps, hl, hexp]

/-- `getAccessToken` either clears the cache or succeeds. -/
theorem getAccessToken_cache_or_ok (now graceSecs : Nat) (env : Env) (cache : Option TokenData) :
    (getAccessToken now graceSecs env cache).2.1 = none ∨
      ∃ s, (getAccessToken now graceSecs env cache).1 = Except.ok s := by
  rcases cache with _ | td
  · simpa [getAccessToken] using getAccessTokenSteps_cache now graceSecs env none
  · by_cases hexp : isTokenExpired now graceSecs td = true
    · simpa [getAccessToken, hexp] using getAccessTokenSteps_cache now graceSecs env (some td)
    · right
      refine ⟨td.accessToken, ?_⟩
      simp only [Bool.not_eq_true] at hexp
      simp [getAccessToken, hexp]

/-- `refreshToken` either clears the cache or succeeds. -/
theorem refreshTokenOp_cache_or_ok (env : Env) (cache : Option TokenData) :
    (refreshTokenOp env cache).2.1 = none ∨
      ∃ td, (refreshTokenOp env cache).1 = Except.ok td := by
  rcases hl : loadStep env cache with e | tokenData
  · left
    simp [refreshTokenOp, hl]
  · rcases hp : pickRefreshToken tokenData env.configRefreshToken with _ | s
    · left
      simp [refreshTokenOp, hl, hp]
    · by_cases hs : s = ""
      · left
        simp [refreshTokenOp, hl, hp, hs]
      · rcases hr : env.refreshAccessToken s with e | newTd
        · left
          simp [refreshTokenOp, hl, hp, hs, hr]
        · rcases hst : env.storage with _ | st
          · right
            exact ⟨newTd, by simp [refreshTokenOp, hl, hp, hs, hr, hst]⟩
          · rcases hsv : st.saveToken newTd with e | u
            · left
              simp [refreshTokenOp, hl, hp, hs, hr, hst, hsv]
            · right
              exact ⟨newTd, by simp [refreshTokenOp, hl, hp, hs, hr, hst, hsv]⟩

/-- C4: whenever `getAccessToken` or `refreshToken` returns an error (storage
load, refresh call, storage save, or the missing-refresh-token throw), the
in-memory cached credential has been set to absent. -/
theorem claim_C4_error_invalidates_cache (now graceSecs : Nat) (env : Env)
    (cache : Option TokenData) (e : String) :
    ((getAccessToken now graceSecs env cache).1 = Except.error e →
      (getAccessToken now graceSecs env cache).2.1 = none) ∧
    ((refreshTokenOp env cache).1 = Except.error e →
      (refreshTokenOp env cache).2.1 = none) := by
  constructor
  · intro h
    rcases getAccessToken_cache_or_ok now graceSecs env cache with hc | ⟨s, hs⟩
    · exact hc
    · rw [h] at hs
      exact Except.noConfusion hs
  · intro h
    rcases refreshTokenOp_cache_or_ok env cache with hc | ⟨td, hs⟩
    · exact hc
    · rw [h] at hs
      exact Except.noConfusion hs

/-- Witness for C4: a failing storage load leaves the cache absent in both
operations. -/
theorem claim_C4_error_invalidates_cache_witness :
    (getAccessToken 0 0 envFailC4 none).2.1 = none ∧
      (refreshTokenOp envFailC4 none).2.1 = none := by
  have h := claim_C4_error_invalidates_cache 0 0 envFailC4 none "boom"
  exact ⟨h.1 rfl, h.2 rfl⟩

/-- Counterexample to C5 as stated: when the server reports `expires_in = 0`,
the code computes `expiresAt = now + 3600000` (JavaScript `||` treats `0` as
falsy), not `now + 0 * 1000` as "current time plus the server-reported
lifetime" would require. -/
theorem claim_C5_counterexample :
    (convertToTokenData 5 respZeroC5).expiresAt = some (5 + 3600 * 1000) ∧
      (convertToTokenData 5 respZeroC5).expiresAt ≠ some (5 + 0 * 1000) := by
  constructor
  · rfl
  · decide

/-- C5 (amended): `expiresAt` is recomputed as now plus the server-reported
lifetime in milliseconds when `expires_in` is a truthy (nonzero) number, and
defaults to exactly 3600 seconds when `expires_in` is omitted **or zero**;
every credential produced by a provider refresh carries an `expiresAt`. -/
theorem claim_C5_expiry_recomputed (now : Nat) (resp : OAuthTokenResponse)
    (requestResult : Except String OAuthTokenResponse) (sentRefreshToken : String)
    (td : TokenData) :
    ((resp.expires_in = none ∨ resp.expires_in = some 0) →
      (convertToTokenData now resp).expiresAt = some (now + 3600 * 1000)) ∧
    (∀ n, resp.expires_in = some n → n ≠ 0 →
      (convertToTokenData now resp).expiresAt = some (now + n * 1000)) ∧
    (refreshAccessTokenImpl now requestResult sentRefreshToken = Except.ok td →
      td.expiresAt = some (now + jsOrNat (match requestResult with
        | Except.ok r => r.expires_in
        | Except.error _ => none) 3600 * 1000)) := by
  refine ⟨?_, ?_, ?_⟩
  · rintro (h | h) <;> simp [convertToTokenData, jsOrNat, h]
  · intro n hn hn0
    simp [convertToTokenData, jsOrNat, hn, hn0]
  · intro h
    rcases requestResult with e | resp2
    · exact Except.noConfusion h
    · by_cases hf : strFalsy (convertToTokenData now resp2).refreshToken = true
      · simp only [refreshAccessTokenImpl, hf, if_true, Except.ok.injEq] at h
        rw [← h]
        rfl
      · simp only [Bool.not_eq_true] at hf
        simp only [refreshAccessTokenImpl, hf, Bool.false_eq_true, if_false,
          Except.ok.injEq] at h
        rw [← h]
        rfl

/-- Witness for C5 (amended), at a response omitting `expires_in`. -/
theorem claim_C5_expiry_recomputed_witness :
    (convertToTokenData 7 respOmitC5).expiresAt = some (7 + 3600 * 1000) := by
  exact (claim_C5_expiry_recomputed 7 respOmitC5 (Except.error "unused") "rt"
    (convertToTokenData 7 respOmitC5)).1 (Or.inl rfl)

/-- Counterexample to C2: with the stale cache `tdStaleC2` at `now = 2000`,
the interleaving "caller A runs to its refresh `await`, then caller B runs"
issues **two** `refreshAccessToken` calls — `getAccessToken` has no
single-flight guard, so two concurrent refresh calls do occur. -/
theorem claim_C2_counterexample :
    (sfRun sfCfgC2 [true, false] sfInitC2).refreshCalls = ["rt", "rt"] ∧
      1 < (sfRun sfCfgC2 [true, false] sfInitC2).refreshCalls.length := by
  constructor
  · rfl
  · decide

/-- The refresh block appends at most one refresh invocation to the log. -/
theorem refreshStep_log_shape (env : Env) (td : Option TokenData) (log : List CapCall) :
    (refreshStep env td log).2.2 = log ∨
      (∃ rt, (refreshStep env td log).2.2 = log ++ [CapCall.refresh rt]) ∨
      (∃ rt newTd, (refreshStep env td log).2.2 =
        log ++ [CapCall.refresh rt, CapCall.save newTd]) := by
  rcases hp : pickRefreshToken td env.configRefreshToken with _ | s
  · left
    simp [refreshStep, hp]
  · by_cases hs : s = ""
    · left
      simp [refreshStep, hp, hs]
    · rcases hr : env.refreshAccessToken s with e | newTd
      · right; left
        exact ⟨s, by simp [refreshStep, hp, hs, hr]⟩
      · rcases hst : env.storage with _ | st
        · right; left
          exact ⟨s, by simp [refreshStep, hp, hs, hr, hst]⟩
        · rcases hsv : st.saveToken newTd with e | u
          · right; right
            exact ⟨s, newTd, by simp [refreshStep, hp, hs, hr, hst, hsv]⟩
          · right; right
            exact ⟨s, newTd, by simp [refreshStep, hp, hs, hr, hst, hsv]⟩

/-- `countRefreshCalls` is additive over append. -/
theorem countRefreshCalls_append (l1 l2 : List CapCall) :
    countRefreshCalls (l1 ++ l2) = countRefreshCalls l1 + countRefreshCalls l2 := by
  simp [countRefreshCalls, List.filter_append]

/-- The storage-load log carries no refresh invocation. -/
theorem countRefreshCalls_loadLog (env : Env) : countRefreshCalls (loadLog env) = 0 := by
  rcases hst : env.storage with _ | st <;> simp [loadLog, hst, countRefreshCalls]

/-- C2 (amended): a single `getAccessToken()` invocation issues at most one
refresh call, but the manager does not single-flight concurrent invocations:
in the two-caller interleaving model, the stale-cache schedule above issues
two refresh calls. -/
theorem claim_C2_single_call_refresh_bound (now graceSecs : Nat) (env : Env)
    (cache : Option TokenData) :
    countRefreshCalls (getAccessToken now graceSecs env cache).2.2 ≤ 1 ∧
      (sfRun sfCfgC2 [true, false] sfInitC2).refreshCalls.length = 2 := by
  constructor
  · have hstep : ∀ td : Option TokenData,
        countRefreshCalls (refreshStep env td (loadLog env)).2.2 ≤ 1 := by
      intro td
      rcases refreshStep_log_shape env td (loadLog env) with h | ⟨rt, h⟩ | ⟨rt, newTd, h⟩
      · rw [h, countRefreshCalls_loadLog]
        decide
      · rw [h, countRefreshCalls_append, countRefreshCalls_loadLog]
        simp [countRefreshCalls]
      · rw [h, countRefreshCalls_append, countRefreshCalls_loadLog]
        simp [countRefreshCalls]
    have hsteps : countRefreshCalls (getAccessTokenSteps now graceSecs env cache).2.2 ≤ 1 := by
      rcases hl : loadStep env cache with e | tokenData
      · simp [getAccessTokenSteps, hl, countRefreshCalls_loadLog]
      · rcases tokenData with _ | td
        · simpa [getAccessTokenSteps, hl] using hstep none
        · by_cases hexp : isTokenExpired now graceSecs td = true
          · simpa [getAccessTokenSteps, hl, hexp] using hstep (some td)
          · simp only [Bool.not_eq_true] at hexp
            simp [getAccessTokenSteps, hl, hexp, countRefreshCalls_loadLog]
    rcases cache with _ | td
    · simpa [getAccessToken] using hsteps
    · by_cases hexp : isTokenExpired now graceSecs td = true
      · simpa [getAccessToken, hexp] using hsteps
      · simp only [Bool.not_eq_true] at hexp
        simp [getAccessToken, hexp, countRefreshCalls]
  · rfl

/-- Counterexample to C8: with a fresh cached token, `getAccessToken()`
without handlers succeeds with `"tok"`, but when `onFetchingAccessToken`
throws, the very same state produces an error — the thrown handler error
aborts the operation (before any token work) instead of leaving the result
unchanged. -/
theorem claim_C8_counterexample :
    connectorGetAccessToken 0 0 envBare handlersNoneC8 (some tdFreshC8) =
      (Except.ok "tok", some tdFreshC8, []) ∧
    connectorGetAccessToken 0 0 envBare handlersBadC8 (some tdFreshC8) =
      (Except.error "cb boom", some tdFreshC8, []) := by
  constructor
  · rfl
  · rfl

/-- C8 (amended): callback errors are not isolated.  (a) An error thrown
inside `onFetchingAccessToken` aborts both `getAccessToken()` and
`refreshToken()` before any storage or refresh call is made, the cache
untouched, the error routed through the `catch`.  (b) That `catch` routes
every error through `onTokenError` when registered: with no `onTokenError`
the error propagates as-is, an `onTokenError` that returns normally still
rethrows the original, and an `onTokenError` that itself throws replaces the
original error.  (c)/(d) An error thrown inside `onTokenRefreshed` makes
`refreshToken()` and `getAccessToken()` reject even though the underlying
manager operation already completed (its storage/refresh calls and cache
update stand). -/
theorem claim_C8_callback_error_propagates (now graceSecs : Nat) (env : Env)
    (cache cache1 cache2 : Option TokenData) (e e2 token : String) (h : Handlers)
    (f : String → Except String Unit) (g : TokenData → Except String Unit)
    (td : TokenData) (log1 log2 : List CapCall) :
    (h.onFetching = some (Except.error e) →
      connectorGetAccessToken now graceSecs env h cache = (handleError h e, cache, []) ∧
      connectorRefreshToken env h cache = (handleError h e, cache, [])) ∧
    (h.onError = none → (handleError h e : Except String String) = Except.error e) ∧
    (h.onError = some f → f e = Except.ok () →
      (handleError h e : Except String String) = Except.error e) ∧
    (h.onError = some f → f e = Except.error e2 →
      (handleError h e : Except String String) = Except.error e2) ∧
    (h.onFetching = none → h.onRefreshed = some g →
      refreshTokenOp env cache = (Except.ok td, cache1, log1) →
      g td = Except.error e →
      connectorRefreshToken env h cache = (handleError h e, cache1, log1)) ∧
    (h.onFetching = none → h.onRefreshed = some g →
      getAccessToken now graceSecs env cache = (Except.ok token, cache1, log1) →
      getTokenData env cache1 = (Except.ok (some td), cache2, log2) →
      justRefreshedHeuristic now td = true →
      g td = Except.error e →
      connectorGetAccessToken now graceSecs env h cache =
        (handleError h e, cache2, log1 ++ log2)) := by
  refine ⟨?_, ?_, ?_, ?_, ?_, ?_⟩
  · intro hf
    constructor
    · simp [connectorGetAccessToken, hf]
    · simp [connectorRefreshToken, hf]
  · intro he
    simp [handleError, he]
  · intro hoe hfe
    simp [handleError, hoe, hfe]
  · intro hoe hfe
    simp [handleError, hoe, hfe]
  · intro hf0 href hop hg
    simp [connectorRefreshToken, hf0, hop, href, hg]
  · intro hf0 href hget htd hheur hg
    simp [connectorGetAccessToken, hf0, hget, htd, hheur, href, hg]

/-- Witness for C8 (amended): a throwing `onTokenRefreshed` (no
`onTokenError`) fails `getAccessToken()` with the callback's error even
though the manager served the fresh cached token. -/
theorem claim_C8_callback_error_propagates_witness :
    connectorGetAccessToken 0 0 envBare handlersRefC8 (some tdFreshC8) =
      (Except.error "refreshed cb boom", some tdFreshC8, []) := by
  have h := claim_C8_callback_error_propagates 0 0 envBare (some tdFreshC8)
    (some tdFreshC8) (some tdFreshC8) "refreshed cb boom" "x" "tok" handlersRefC8
    (fun _ => Except.ok ()) (fun _ => Except.error "refreshed cb boom") tdFreshC8 [] []
  have hd := h.2.2.2.2.2 rfl rfl rfl rfl rfl rfl
  simpa [handleError, handlersRefC8] using hd

/-- Counterexample to C9: after a successful `deleteToken()` the manager's
in-memory cache still holds the credential — the cache entry does not become
absent. -/
theorem claim_C9_counterexample :
    (connectorDeleteToken (Except.ok ()) (some tdC9)).2 = some tdC9 ∧
      some tdC9 ≠ (none : Option TokenData) := by
  constructor
  · rfl
  · simp

/-- C9 (amended): an explicit token delete delegates to the storage
strategy's delete (clearing the persisted copy, whose outcome is returned
unchanged) but leaves the in-memory cached credential untouched; only
`TokenManager.clearCache` (called from `destroy`, not from `deleteToken`)
sets the cache to absent. -/
theorem claim_C9_delete_leaves_cache (r : Except String Unit) (cache : Option TokenData) :
    connectorDeleteToken r cache = (r, cache) ∧ clearCache cache = none := by
  constructor
  · rcases r with e | u
    · rfl
    · rfl
  · rfl

/-- C7 (amended): a decryption failure inside the remote strategy's
`loadToken` is rethrown, and a storage `loadToken` error propagates out of
the manager's `getAccessToken` (clearing the cache) without any refresh
attempt — the manager does **not** treat the failure as an absent credential. -/
theorem claim_C7_decrypt_failure_propagates (key d : String) (obj : RemoteObject)
    (decryptFn : String → String → Except String String)
    (parseFn : String → Except String TokenData) (e : String)
    (hk : key ≠ "") (hd : d ≠ "") (hm : obj.encMarker = true) (hdata : obj.encData = some d)
    (hdec : decryptFn d key = Except.error e)
    (now graceSecs : Nat) (env : Env) (st : StorageOps)
    (hst : env.storage = some st) (hload : st.loadToken = Except.error e) :
    remoteLoadToken (some key) decryptFn parseFn (Except.ok (some obj)) = Except.error e ∧
      getAccessToken now graceSecs env none = (Except.error e, none, [CapCall.load]) := by
  constructor
  · simp [remoteLoadToken, hdata, hk, hd, hm, hdec]
  · have hl : loadStep env none = Except.error e := by
      simp [loadStep, hst, hload]
    have hlog : loadLog env = [CapCall.load] := by
      simp [loadLog, hst]
    simp [getAccessToken, getAccessTokenSteps, hl, hlog]

/-- Counterexample to C7 (spec scenario D): with a corrupt persisted blob and
a configured static refresh token, `loadToken` rethrows the decryption error
and `getAccessToken` propagates it without issuing any refresh call — instead
of treating storage as absent and refreshing. -/
theorem claim_C7_counterexample :
    remoteLoadToken (some "k") badDecryptC7 parseC7 (Except.ok (some objC7)) =
      Except.error "Decryption failed: corrupt" ∧
    getAccessToken 7 0 envC7 none =
      (Except.error "Decryption failed: corrupt", none, [CapCall.load]) ∧
    envC7.configRefreshToken = some "static-rt" := by
  refine ⟨rfl, rfl, rfl⟩

/-- Witness for C7 (amended) at the concrete scenario-D state. -/
theorem claim_C7_decrypt_failure_propagates_witness :
    remoteLoadToken (some "k") badDecryptC7 parseC7 (Except.ok (some objC7)) =
      Except.error "Decryption failed: corrupt" := by
  exact (claim_C7_decrypt_failure_propagates "k" "blob" objC7 badDecryptC7 parseC7
    "Decryption failed: corrupt" (by simp) (by simp) rfl rfl rfl 7 0 envC7 stC7 rfl rfl).1

/-- C10: in the local-file strategy a missing token file (`ENOENT`) is not an
error — `loadToken` returns absent and `deleteToken` succeeds — while any
other I/O failure propagates with its message from both operations. -/
theorem claim_C10_enoent_is_absent (key : Option String)
    (decryptFn : String → String → Except String String)
    (parseFn : String → Except String TokenData) (m : String) :
    localLoadToken key decryptFn parseFn (Except.error FsError.enoent) = Except.ok none ∧
    localDeleteToken (Except.error FsError.enoent) = Except.ok () ∧
    localLoadToken key decryptFn parseFn (Except.error (FsError.other m)) = Except.error m ∧
    localDeleteToken (Except.error (FsError.other m)) = Except.error m := by
  exact ⟨rfl, rfl, rfl, rfl⟩

/-- The base64 alphabet mapping is invertible on sextets. -/
theorem charToSextet_sextetToChar : ∀ n, n < 64 → charToSextet (sextetToChar n) = n := by
  decide

/-- No sextet encodes to the padding character. -/
theorem sextetToChar_ne_pad : ∀ n, n < 64 → sextetToChar n ≠ '=' := by
  decide

/-- base64 decoding inverts base64 encoding on byte lists. -/
theorem b64_roundtrip (l : List Nat) (h : ∀ b ∈ l, b < 256) :
    b64Decode (b64Encode l) = l := by
  induction l using b64Encode.induct with
  | case1 => rfl
  | case2 b1 =>
    have hb1 : b1 < 256 := h b1 (by simp)
    simp only [b64Encode, b64Decode, if_pos rfl]
    rw [charToSextet_sextetToChar (b1 / 4) (by omega),
        charToSextet_sextetToChar (b1 % 4 * 16) (by omega)]
    have e1 : b1 / 4 * 4 + b1 % 4 * 16 / 16 = b1 := by omega
    rw [e1]
    simp
  | case3 b1 b2 =>
    have hb1 : b1 < 256 := h b1 (by simp)
    have hb2 : b2 < 256 := h b2 (by simp)
    have h3ne : sextetToChar (b2 % 16 * 4) ≠ '=' := sextetToChar_ne_pad _ (by omega)
    simp only [b64Encode, b64Decode, if_neg h3ne, if_pos rfl]
    rw [charToSextet_sextetToChar (b1 / 4) (by omega),
        charToSextet_sextetToChar (b1 % 4 * 16 + b2 / 16) (by omega),
        charToSextet_sextetToChar (b2 % 16 * 4) (by omega)]
    have e1 : b1 / 4 * 4 + (b1 % 4 * 16 + b2 / 16) / 16 = b1 := by omega
    have e2 : (b1 % 4 * 16 + b2 / 16) % 16 * 16 + b2 % 16 * 4 / 4 = b2 := by omega
    rw [e1, e2]
    simp
  | case4 b1 b2 b3 rest ih =>
    have hb1 : b1 < 256 := h b1 (by simp)
    have hb2 : b2 < 256 := h b2 (by simp)
    have hb3 : b3 < 256 := h b3 (by simp)
    have hrest : ∀ b ∈ rest, b < 256 := fun b hb => h b (by simp [hb])
    have h3ne : sextetToChar (b2 % 16 * 4 + b3 / 64) ≠ '=' :=
      sextetToChar_ne_pad _ (by omega)
    have h4ne : sextetToChar (b3 % 64) ≠ '=' := sextetToChar_ne_pad _ (by omega)
    simp only [b64Encode, b64Decode, if_neg h3ne, if_neg h4ne]
    rw [charToSextet_sextetToChar (b1 / 4) (by omega),
        charToSextet_sextetToChar (b1 % 4 * 16 + b2 / 16) (by omega),
        charToSextet_sextetToChar (b2 % 16 * 4 + b3 / 64) (by omega),
        charToSextet_sextetToChar (b3 % 64) (by omega),
        ih hrest]
    have e1 : b1 / 4 * 4 + (b1 % 4 * 16 + b2 / 16) / 16 = b1 := by omega
    have e2 : (b1 % 4 * 16 + b2 / 16) % 16 * 16 + (b2 % 16 * 4 + b3 / 64) / 4 = b2 := by
      omega
    have e3 : (b2 % 16 * 4 + b3 / 64) % 4 * 64 + b3 % 64 = b3 := by omega
    rw [e1, e2, e3]

/-- C6: for any cipher primitives satisfying the AEAD contract at the given
inputs (authenticated decryption with the same passphrase recovers the
plaintext; decryption keyed by a different passphrase fails authentication),
the service's `decrypt (encrypt data pass) pass` returns exactly `data`, and
`decrypt (encrypt data pass) pass2` with `pass2 ≠ pass` fails with the
decryption-failed error. -/
theorem claim_C6_encrypt_decrypt_roundtrip (P : CipherPrims) (data pass pass2 : String)
    (salt iv : List Nat)
    (_hdata : data ≠ "") (_hne : pass ≠ pass2)
    (hsalt : salt.length = 16) (hiv : iv.length = 16)
    (htag : (P.encryptBlock (P.deriveKey pass salt) iv data).2.length = 16)
    (hsb : ∀ b ∈ salt, b < 256) (hib : ∀ b ∈ iv, b < 256)
    (htb : ∀ b ∈ (P.encryptBlock (P.deriveKey pass salt) iv data).2, b < 256)
    (hcb : ∀ b ∈ (P.encryptBlock (P.deriveKey pass salt) iv data).1, b < 256)
    (hround : P.decryptBlock (P.deriveKey pass salt) iv
      (P.encryptBlock (P.deriveKey pass salt) iv data).1
      (P.encryptBlock (P.deriveKey pass salt) iv data).2 = some data)
    (hwrong : P.decryptBlock (P.deriveKey pass2 salt) iv
      (P.encryptBlock (P.deriveKey pass salt) iv data).1
      (P.encryptBlock (P.deriveKey pass salt) iv data).2 = none) :
    decryptE P (encryptE P data pass salt iv) pass = Except.ok data ∧
      decryptE P (encryptE P data pass salt iv) pass2 =
        Except.error decryptionFailedMsg := by
  set key := P.deriveKey pass salt with hkey
  set ct := (P.encryptBlock key iv data).1 with hct
  set tag := (P.encryptBlock key iv data).2 with htagdef
  have hassoc : salt ++ iv ++ tag ++ ct = salt ++ (iv ++ (tag ++ ct)) := by
    simp [List.append_assoc]
  have hall : ∀ b ∈ salt ++ (iv ++ (tag ++ ct)), b < 256 := by
    intro b hb
    rcases List.mem_append.mp hb with h1 | hb2
    · exact hsb b h1
    rcases List.mem_append.mp hb2 with h2 | hb3
    · exact hib b h2
    rcases List.mem_append.mp hb3 with h3 | h4
    · exact htb b h3
    · exact hcb b h4
  have hdecode : b64Decode (String.mk (b64Encode (salt ++ (iv ++ (tag ++ ct))))).toList =
      salt ++ (iv ++ (tag ++ ct)) := by
    have hchars : (String.mk (b64Encode (salt ++ (iv ++ (tag ++ ct))))).toList =
        b64Encode (salt ++ (iv ++ (tag ++ ct))) := rfl
    rw [hchars]
    exact b64_roundtrip _ hall
  have ht1 : (salt ++ (iv ++ (tag ++ ct))).take 16 = salt := List.take_left' hsalt
  have hd1 : (salt ++ (iv ++ (tag ++ ct))).drop 16 = iv ++ (tag ++ ct) :=
    List.drop_left' hsalt
  have hd2 : (salt ++ (iv ++ (tag ++ ct))).drop 32 = tag ++ ct := by
    have e32 : ((salt ++ (iv ++ (tag ++ ct))).drop 16).drop 16 =
        (salt ++ (iv ++ (tag ++ ct))).drop 32 := by
      simp
    rw [← e32, hd1]
    exact List.drop_left' hiv
  have ht2 : ((salt ++ (iv ++ (tag ++ ct))).drop 16).take 16 = iv := by
    rw [hd1]
    exact List.take_left' hiv
  have ht3 : ((salt ++ (iv ++ (tag ++ ct))).drop 32).take 16 = tag := by
    rw [hd2]
    exact List.take_left' htag
  have hd3 : (salt ++ (iv ++ (tag ++ ct))).drop 48 = ct := by
    have e48 : ((salt ++ (iv ++ (tag ++ ct))).drop 32).drop 16 =
        (salt ++ (iv ++ (tag ++ ct))).drop 48 := by
      simp
    rw [← e48, hd2]
    exact List.drop_left' htag
  constructor
  · simp only [decryptE, encryptE, ← hkey, ← hct, ← htagdef, hassoc, hdecode, ht1, ht2,
      ht3, hd3, hround]
  · simp only [decryptE, encryptE, ← hkey, ← hct, ← htagdef, hassoc, hdecode, ht1, ht2,
      ht3, hd3, hwrong]

/-- Witness for C6 with the toy primitives at plaintext `"hi"`, passphrases
`"key1"` / `"key2"`, and all-zero salt and IV. -/
theorem claim_C6_encrypt_decrypt_roundtrip_witness :
    decryptE toyCipher
        (encryptE toyCipher "hi" "key1" (List.replicate 16 0) (List.replicate 16 0))
        "key1" = Except.ok "hi" ∧
      decryptE toyCipher
        (encryptE toyCipher "hi" "key1" (List.replicate 16 0) (List.replicate 16 0))
        "key2" = Except.error decryptionFailedMsg := by
  exact claim_C6_encrypt_decrypt_roundtrip toyCipher "hi" "key1" "key2"
    (List.replicate 16 0) (List.replicate 16 0)
    (by decide) (by decide) (by decide) (by decide) (by decide)
    (by decide) (by decide) (by decide) (by decide) (by decide) (by decide)
